import Mathlib

/-!
Verification development for the YouTube-analysis API route of this
repository.  The route's helpers (`extractVideoId`, `getYoutubeMetadata`,
`extractKeyTakeaways`, `extractTopics`, `generateFallbackAnalysis`) and the
`POST` handler are shallowly embedded as executable Lean functions, with the
outbound HTTP calls (oEmbed metadata, Supadata transcript, Groq chat
completion) replaced by explicit outcome values supplied in a `World` record.
JavaScript-specific behaviour (string falsiness, the `||` default operator,
the URL regular expression, `String.prototype` operations) is modelled
explicitly below; each definition cites the source lines it embeds.
-/

/-! ## JavaScript value helpers -/

/-- JS truthiness of a possibly-absent string: `undefined`/`null` and the
empty string are falsy, every other string is truthy. -/
def jsTruthy : Option String → Bool
  | none => false
  | some s => if s = "" then false else true

/-- JS `x || d` for a possibly-absent string operand: the default is used
when the operand is absent or empty (falsy). -/
def jsOrStr : Option String → String → String
  | none, d => d
  | some s, d => if s = "" then d else s

/-- JS `x || d` for a possibly-absent number operand (`0` is falsy). -/
def jsOrNat : Option Nat → Nat → Nat
  | none, d => d
  | some n, d => if n = 0 then d else n

/-- Coerce a possibly-absent string to the string actually used after a
truthiness guard (absent collapses to the empty string). -/
def jsStr : Option String → String
  | none => ""
  | some s => s

/-! ## List-of-characters string primitives

The JS string operations used by the route (`split('\n')`, `toLowerCase`,
`includes`, `startsWith`, `trim`, `substring`) are modelled over `List Char`
so that every definition reduces inside the kernel. -/

/-- JS `text.split('\n')`: split at every newline, keeping empty pieces. -/
def splitLines : List Char → List (List Char)
  | [] => [[]]
  | c :: rest =>
    if c = '\n' then [] :: splitLines rest
    else
      match splitLines rest with
      | l :: ls => (c :: l) :: ls
      | [] => [[c]]

/-- JS `String.prototype.toLowerCase` restricted to the ASCII range used by
the route's trigger phrases. -/
def lowerL (l : List Char) : List Char := l.map Char.toLower

/-- Does the second list occur as a prefix of the first (JS `startsWith`)? -/
def startsWithL : List Char → List Char → Bool
  | _, [] => true
  | [], _ :: _ => false
  | c :: cs, p :: ps => c = p && startsWithL cs ps

/-- Does `pat` occur as a contiguous run anywhere in `s` (JS `includes`)? -/
def containsL : List Char → List Char → Bool
  | [], pat => pat.isEmpty
  | c :: rest, pat => startsWithL (c :: rest) pat || containsL rest pat

/-- JS whitespace as used by `trim` and `\s` on the route's inputs. -/
def jsIsSpace (c : Char) : Bool :=
  c = ' ' || c = '\t' || c = '\n' || c = '\r' || c = '\x0b' || c = '\x0c'

/-- JS `String.prototype.trim`. -/
def trimL (l : List Char) : List Char :=
  ((l.dropWhile jsIsSpace).reverse.dropWhile jsIsSpace).reverse

/-- JS `s.substring(0, n)`. -/
def strTake (s : String) (n : Nat) : String := String.mk (s.data.take n)

/-! ## `extractVideoId` (source lines 23-44)

The source matches the URL against

  `/^.*((youtu.be\/)|(v\/)|(\/u\/\w\/)|(embed\/)|(watch\?))\??v?=?([^#&?]*).*/`

and returns capture group 7 when the match succeeds, the group is truthy and
its length is exactly 11.  The regular expression is compiled by hand:

* the five alternatives of group 1 begin with the pairwise-distinct
  characters `y`, `v`, `/`, `e`, `w`, so at a given position at most one
  alternative can match and JS's ordered alternation is unambiguous;
* everything after group 1 (`\??v?=?([^#&?]*).*`) matches any suffix, so the
  greedy leading `.*` makes the engine choose the *last* position at which an
  alternative matches, and the three optional one-character terms each
  consume their character exactly when it is next;
* the leading `.*` cannot cross a JS line terminator, so only positions
  before the first line terminator are candidates;
* group 7 greedily takes the longest run of characters other than
  `#`, `&`, `?`. -/

/-- JS `\w` (ASCII word character). -/
def jsWordCh (c : Char) : Bool := c.isAlpha || c.isDigit || c = '_'

/-- JS `.`: any character except a line terminator. -/
def jsDotCh (c : Char) : Bool :=
  !(c = '\n' || c = '\r' || c.val = 8232 || c.val = 8233)

/-- A JS line terminator (what the leading greedy `.*` cannot cross). -/
def jsLineTerm (c : Char) : Bool :=
  c = '\n' || c = '\r' || c.val = 8232 || c.val = 8233

/-- Try to match one alternative of capture group 1 at the head of the list;
returns the remainder of the input on success.  The alternatives are
`youtu.be/`, `v/`, `/u/\w/`, `embed/`, `watch?` (the final `?` of the last
one is a literal question mark in the pattern). -/
def matchAlt : List Char → Option (List Char)
  | 'y' :: 'o' :: 'u' :: 't' :: 'u' :: c :: 'b' :: 'e' :: '/' :: rest =>
    if jsDotCh c then some rest else none
  | 'v' :: '/' :: rest => some rest
  | '/' :: 'u' :: '/' :: c :: '/' :: rest =>
    if jsWordCh c then some rest else none
  | 'e' :: 'm' :: 'b' :: 'e' :: 'd' :: '/' :: rest => some rest
  | 'w' :: 'a' :: 't' :: 'c' :: 'h' :: '?' :: rest => some rest
  | _ => none

/-- Greedy `^.*` then group 1: the remainder of the input after the group-1
alternative matched at the last reachable position (later positions are
preferred; positions past a line terminator are unreachable). -/
def findLastAlt : List Char → Option (List Char)
  | [] => none
  | c :: rest =>
    if jsLineTerm c then none
    else
      match findLastAlt rest with
      | some r => some r
      | none => matchAlt (c :: rest)

/-- `\??v?=?` then capture group 7 (`[^#&?]*`), applied to the input
remaining after group 1. -/
def group7After (r : List Char) : List Char :=
  let r1 := match r with | '?' :: t => t | l => l
  let r2 := match r1 with | 'v' :: t => t | l => l
  let r3 := match r2 with | '=' :: t => t | l => l
  r3.takeWhile (fun c => !(c = '#' || c = '&' || c = '?'))

/-- Capture group 7 of the source regular expression (`match[7]`), or `none`
when the whole regular expression does not match. -/
def jsMatchGroup7 (s : String) : Option String :=
  match findLastAlt s.data with
  | none => none
  | some r => some (String.mk (group7After r))

/-- Source lines 23-44: returns `match[7]` exactly when the URL is truthy,
the regular expression matches, the captured group is truthy and its length
is exactly 11; otherwise `null`. -/
def extractVideoId (url : String) : Option String :=
  if url = "" then none
  else
    match jsMatchGroup7 url with
    | some g => if g ≠ "" ∧ g.length = 11 then some g else none
    | none => none

/-! ## Heuristic post-processors (source lines 73-135) -/

/-- Source line 80: a line that flips `inTakeawaysSection` on. -/
def keyTakeawayTrigger (line : List Char) : Bool :=
  containsL (lowerL line) ("key takeaway".data) ||
    containsL (lowerL line) ("main point".data)

/-- Source line 109: a line that flips `inTopicsSection` on. -/
def topicTrigger (line : List Char) : Bool :=
  containsL (lowerL line) ("topic".data) ||
    containsL (lowerL line) ("theme".data) ||
      containsL (lowerL line) ("subject".data)

/-- Source line 85 predicate `/^\d+\./.test(line)`: one or more digits at
the start of the line, immediately followed by a dot. -/
def digitsDotTest : List Char → Bool
  | [] => false
  | c :: rest => c.isDigit && digitsDotAux rest
where
  digitsDotAux : List Char → Bool
    | [] => false
    | c :: rest => if c.isDigit then digitsDotAux rest else c = '.'

/-- Source lines 85 and 114: a collectable list line — trimmed-nonempty and
starting with `-`, `•` or digits-then-dot. -/
def isListLine (line : List Char) : Bool :=
  !(trimL line).isEmpty &&
    (startsWithL line ['-'] || startsWithL line ['•'] || digitsDotTest line)

/-- A character of the leading-marker class `[-•\d\.]` of the strip regular
expression on source lines 86 and 115. -/
def isMarkerCh (c : Char) : Bool := c = '-' || c = '•' || c.isDigit || c = '.'

/-- Source lines 86 and 115: `line.replace(/^[-•\d\.]+\s*/, '').trim()` —
when the line starts with a marker character, drop the leading run of marker
characters and following whitespace; then trim. -/
def stripItem (line : List Char) : List Char :=
  let afterMarkers :=
    match line with
    | c :: _ => if isMarkerCh c then (line.dropWhile isMarkerCh).dropWhile jsIsSpace else line
    | [] => line
  trimL afterMarkers

/-- The shared scanning loop of `extractKeyTakeaways` (source lines 79-91)
and `extractTopics` (source lines 108-124): a trigger line switches the
in-section flag on and is otherwise skipped (`continue`); inside the section
every list line is collected stripped; the loop breaks as soon as five items
have been collected.  The two source loops are this function with their
respective trigger predicates — the topics loop builds its objects from the
collected string at the push site, modelled by the `map` in `extractTopics`
below. -/
def collectListItems (trigger : List Char → Bool) :
    List (List Char) → Bool → List String → List String
  | [], _, acc => acc
  | line :: rest, inSection, acc =>
    if trigger line then collectListItems trigger rest true acc
    else
      let acc2 :=
        if inSection && isListLine line then acc ++ [String.mk (stripItem line)] else acc
      if 5 ≤ acc2.length then acc2 else collectListItems trigger rest inSection acc2

/-- Source lines 73-99. -/
def extractKeyTakeaways (text : String) : List String :=
  let takeaways := collectListItems keyTakeawayTrigger (splitLines text.data) false []
  if takeaways.length = 0 then ["No specific key takeaways identified"] else takeaways

/-- A topic as built on source lines 116-119 and 128-131. -/
structure Topic where
  title : String
  description : String
deriving DecidableEq, Repr

/-- Source lines 102-135. -/
def extractTopics (text : String) : List Topic :=
  let collected := collectListItems topicTrigger (splitLines text.data) false []
  let topics := collected.map (fun t => Topic.mk t ("Discussion about " ++ t))
  if topics.length = 0 then
    [Topic.mk ("General Content") ("The main content of the video")]
  else topics

/-! ## Data model of the route's request/response values -/

/-- oEmbed metadata as read by the route (source lines 63, 285-289); every
field is optional because the route guards each access with `?.` and `||`. -/
structure VideoMetadata where
  title : Option String
  author_name : Option String
  length_seconds : Option Nat
  thumbnail_url : Option String
  description : Option String
deriving DecidableEq, Repr

/-- One transcript segment; its structure is externally defined and opaque
to the route, which only passes segments through. -/
structure TranscriptSeg where
  payload : String
deriving DecidableEq, Repr

/-- The `videoInfo` object (source lines 284-292 and 380-386).  The fallback
transcript's `videoInfo` omits `lengthSeconds` and `description`, hence the
two optional fields. -/
structure VideoInfo where
  title : String
  author : String
  lengthSeconds : Option Nat
  thumbnailUrl : String
  description : Option String
  videoId : String
  videoUrl : String
deriving DecidableEq, Repr

/-- The error descriptor attached to a placeholder transcript (source lines
387-390). -/
structure TranscriptError where
  message : String
  code : String
deriving DecidableEq, Repr

/-- A transcript value (source lines 281-293 and 377-391). -/
structure Transcript where
  content : String
  segments : List TranscriptSeg
  videoInfo : VideoInfo
  error : Option TranscriptError
deriving DecidableEq, Repr

/-- One heading/description pair of the framework (source lines 142-147). -/
structure FrameworkComponent where
  heading : String
  description : String
deriving DecidableEq, Repr

/-- The framework object (source lines 140-148). -/
structure Framework where
  title : String
  components : List FrameworkComponent
deriving DecidableEq, Repr

/-- The analysis payload (source lines 325-338 and 139-161). -/
structure Analysis where
  framework : Framework
  summary : String
  keyTakeaways : List String
  topics : List Topic
deriving DecidableEq, Repr

/-- Source lines 138-161: the static fallback analysis, a function of the
video title alone. -/
def generateFallbackAnalysis (title : String) : Analysis :=
  { framework :=
      { title := "Framework for " ++ title,
        components :=
          [{ heading := "Summary",
             description := "A summary of the video could not be generated automatically." }] },
    summary := "Unable to generate a summary for this video.",
    keyTakeaways :=
      ["Automatic key takeaways could not be generated.",
       "Please watch the video for the main points."],
    topics :=
      [Topic.mk ("Video Content") ("The main content of the video.")] }

/-! ## Outbound-call outcomes

Each outbound HTTP call the handler makes is modelled by an outcome value:
what the network and the remote service did for this request. -/

/-- Outcome of the oEmbed metadata fetch on source line 56: either the fetch
(or its body parse) threw, or a response arrived with the given status and
parsed body. -/
inductive OembedOutcome where
  | netThrow
  | reply (status : Nat) (meta : VideoMetadata)
deriving DecidableEq, Repr

/-- JS `Response.ok`: status in the 2xx range. -/
def statusOk (s : Nat) : Bool := 200 ≤ s && s ≤ 299

/-- Source lines 47-70: fetch oEmbed metadata for the URL's video ID.  Every
failure (unextractable ID, rejected fetch, body-parse throw, non-2xx status)
is absorbed into `none`; the function is total, modelling that it never
raises. -/
def getYoutubeMetadata (oembed : OembedOutcome) (videoUrl : String) : Option VideoMetadata :=
  match extractVideoId videoUrl with
  | none => none
  | some _ =>
    match oembed with
    | OembedOutcome.netThrow => none
    | OembedOutcome.reply status meta => if statusOk status then some meta else none

/-- The parsed JSON body of a Supadata transcript response: the `success`
and `message` fields plus the nested `data.text` / `data.segments` the route
reads (source lines 272-283). -/
structure SupadataBody where
  success : Bool
  message : Option String
  text : String
  segments : Option (List TranscriptSeg)
deriving DecidableEq, Repr

/-- Outcome of the Supadata transcript fetch on source line 260: either the
fetch or the body parse threw (with the thrown error's message), or a
response arrived with the given status and parsed body. -/
inductive SupadataOutcome where
  | netThrow (msg : String)
  | reply (status : Nat) (body : SupadataBody)
deriving DecidableEq, Repr

/-- Source lines 260-276: the transcript-fetch steps of the inner `try`
block.  A non-2xx status throws `Supadata API returned status: N`; a body
with a false success flag throws `data.message || 'Unknown error from
Supadata API'`; otherwise the parsed body is available. -/
def fetchTranscriptText (o : SupadataOutcome) : Except String SupadataBody :=
  match o with
  | SupadataOutcome.netThrow msg => Except.error msg
  | SupadataOutcome.reply status body =>
    if statusOk status = false then
      Except.error ("Supadata API returned status: " ++ toString status)
    else if body.success = false then
      Except.error (jsOrStr body.message ("Unknown error from Supadata API"))
    else Except.ok body

/-- The error message `fetchTranscriptText` produces for a response-shaped
failure (non-2xx status, or an explicit false success flag). -/
def supadataFailMsg (st : Nat) (b : SupadataBody) : String :=
  if statusOk st = false then ("Supadata API returned status: " ++ toString st)
  else jsOrStr b.message ("Unknown error from Supadata API")

/-- Outcome of the Groq chat-completion call on source line 305: either the
call threw (with the thrown error's message), or it returned and
`completion.choices[0]?.message?.content` was the given optional string. -/
inductive GroqOutcome where
  | throws (msg : String)
  | reply (content : Option String)
deriving DecidableEq, Repr

/-- The title defaulting used at source lines 285, 368, 381 and 398:
`metadata?.title || 'Video ' + videoId`. -/
def chosenTitle (metadata : Option VideoMetadata) (videoId : String) : String :=
  jsOrStr (metadata.bind VideoMetadata.title) ("Video " ++ videoId)

/-- Source lines 281-293: the transcript assembled from a successful
Supadata body plus the (optional) metadata. -/
def mkTranscript (body : SupadataBody) (metadata : Option VideoMetadata)
    (videoId videoUrl : String) : Transcript :=
  { content := body.text,
    segments := body.segments.getD [],
    videoInfo :=
      { title := chosenTitle metadata videoId,
        author := jsOrStr (metadata.bind VideoMetadata.author_name) ("Unknown"),
        lengthSeconds := some (jsOrNat (metadata.bind VideoMetadata.length_seconds) 0),
        thumbnailUrl := jsOrStr (metadata.bind VideoMetadata.thumbnail_url)
          ("https://img.youtube.com/vi/" ++ videoId ++ "/hqdefault.jpg"),
        description := some (jsOrStr (metadata.bind VideoMetadata.description) ("")),
        videoId := videoId,
        videoUrl := videoUrl },
    error := none }

/-- Source lines 377-391: the placeholder transcript built when the
transcript fetch failed, carrying the error descriptor. -/
def fallbackTranscript (metadata : Option VideoMetadata)
    (videoId videoUrl tmsg : String) : Transcript :=
  { content := "Could not fetch transcript for video " ++ videoId,
    segments := [],
    videoInfo :=
      { title := chosenTitle metadata videoId,
        author := jsOrStr (metadata.bind VideoMetadata.author_name) ("Unknown"),
        lengthSeconds := none,
        thumbnailUrl := jsOrStr (metadata.bind VideoMetadata.thumbnail_url)
          ("https://img.youtube.com/vi/" ++ videoId ++ "/hqdefault.jpg"),
        description := none,
        videoId := videoId,
        videoUrl := videoUrl },
    error := some { message := tmsg, code := "TRANSCRIPT_FETCH_ERROR" } }

/-- Source lines 322-338: the analysis assembled from the Groq output text
(`completion.choices[0]?.message?.content || ""`). -/
def mkAnalysis (metadata : Option VideoMetadata) (videoId : String)
    (analysisText : String) : Analysis :=
  { framework :=
      { title := jsOrStr (metadata.bind VideoMetadata.title) ("Framework for " ++ videoId),
        components := [{ heading := "Summary", description := strTake analysisText 500 }] },
    summary := strTake analysisText 500,
    keyTakeaways := extractKeyTakeaways analysisText,
    topics := extractTopics analysisText }

/-! ## The `POST` handler (source lines 190-415) -/

/-- The shape of the `error` field across the route's responses: absent, a
plain string, or the `{ analysis: ... }` object of the degraded response on
source lines 363-365. -/
inductive ErrField where
  | absent
  | msg (s : String)
  | analysisErr (s : String)
deriving DecidableEq, Repr

/-- The `data` payload of a response (source lines 350-353). -/
structure ResponseData where
  transcript : Transcript
  analysis : Analysis
deriving DecidableEq, Repr

/-- A JSON response of the route, with its HTTP status and every body field
any branch writes; `none` in an optional field means the branch omitted the
field from the body. -/
structure ApiResponse where
  status : Nat
  success : Bool
  partFlag : Option Bool
  error : ErrField
  troubleshooting : Option String
  requestId : Option String
  processingTime : Option Nat
  data : Option ResponseData
  stack : Option String
deriving DecidableEq, Repr

/-- The parsed request body; `videoUrl` may be absent. -/
structure ReqBody where
  videoUrl : Option String
deriving DecidableEq, Repr

/-- Tag for an outbound network call the handler performs. -/
inductive NetCall where
  | oembedCall
  | supadataCall
  | groqCall
deriving DecidableEq, Repr

/-- Everything a single request observes from its environment: the parsed
request body (`Except.error` = `req.json()` threw), the two configuration
keys, the three outbound-call outcomes, and the ambient values `Math.random`
id, `Date.now` readings, `NODE_ENV` and the error stack text. -/
structure World where
  reqBody : Except String ReqBody
  supadataKey : Option String
  groqKey : Option String
  oembed : OembedOutcome
  supadata : SupadataOutcome
  groq : GroqOutcome
  requestId : String
  startTime : Nat
  endTime : Nat
  devMode : Bool
  errStack : String

/-- Source lines 201-207: 400, missing `videoUrl`. -/
def missingVideoUrlResp : ApiResponse :=
  { status := 400, success := false, partFlag := none,
    error := ErrField.msg ("Missing videoUrl parameter in request body"),
    troubleshooting := none, requestId := none, processingTime := none,
    data := none, stack := none }

/-- Source lines 212-219: 500, missing Supadata key. -/
def missingSupadataKeyResp : ApiResponse :=
  { status := 500, success := false, partFlag := none,
    error := ErrField.msg ("Server configuration error: Missing Supadata API key"),
    troubleshooting := some ("Add SUPADATA_API_KEY to your environment variables"),
    requestId := none, processingTime := none, data := none, stack := none }

/-- Source lines 221-228: 500, missing Groq key. -/
def missingGroqKeyResp : ApiResponse :=
  { status := 500, success := false, partFlag := none,
    error := ErrField.msg ("Server configuration error: Missing Groq API key"),
    troubleshooting := some ("Add GROQ_API_KEY to your environment variables"),
    requestId := none, processingTime := none, data := none, stack := none }

/-- Source lines 242-247: 400, unextractable video ID. -/
def invalidUrlResp : ApiResponse :=
  { status := 400, success := false, partFlag := none,
    error := ErrField.msg ("Invalid YouTube URL. Could not extract video ID."),
    troubleshooting := none, requestId := none, processingTime := none,
    data := none, stack := none }

/-- Source lines 346-354: the full-success response (default status 200). -/
def fullSuccessResp (w : World) (transcript : Transcript) (analysis : Analysis) : ApiResponse :=
  { status := 200, success := true, partFlag := none, error := ErrField.absent,
    troubleshooting := none, requestId := some w.requestId,
    processingTime := some (w.endTime - w.startTime),
    data := some { transcript := transcript, analysis := analysis }, stack := none }

/-- Source lines 360-370: the degraded response sent when the Groq call
threw — success with the partial flag, the transcript intact and the static
fallback analysis (default status 200). -/
def degradedResp (transcript : Transcript) (gmsg : String) (fallback : Analysis) : ApiResponse :=
  { status := 200, success := true, partFlag := some true,
    error := ErrField.analysisErr ("Error generating analysis: " ++ gmsg),
    troubleshooting := none, requestId := none, processingTime := none,
    data := some { transcript := transcript, analysis := fallback }, stack := none }

/-- Source lines 393-400: the response sent when the transcript fetch threw
(default status 200). -/
def transcriptFailResp (metadata : Option VideoMetadata)
    (videoId videoUrl tmsg : String) : ApiResponse :=
  { status := 200, success := false, partFlag := none,
    error := ErrField.msg ("Failed to fetch transcript: " ++ tmsg),
    troubleshooting := none, requestId := none, processingTime := none,
    data := some
      { transcript := fallbackTranscript metadata videoId videoUrl tmsg,
        analysis := generateFallbackAnalysis (chosenTitle metadata videoId) },
    stack := none }

/-- Source lines 403-414: the outer catch-all 500. -/
def serverErrorResp (w : World) (emsg : String) : ApiResponse :=
  { status := 500, success := false, partFlag := none,
    error := ErrField.msg ("Server error: " ++ emsg),
    troubleshooting := none, requestId := some w.requestId,
    processingTime := some (w.endTime - w.startTime), data := none,
    stack := if w.devMode then some w.errStack else none }

/-- Source lines 190-415: the `POST` handler as a function from the
request's observed world to its response together with the list of outbound
network calls it performed, in order.  In this model the only uncaught
exception reaching the outer catch is a `req.json()` failure; every other
failure is handled by a dedicated branch of the source. -/
def POST (w : World) : ApiResponse × List NetCall :=
  match w.reqBody with
  | Except.error emsg => (serverErrorResp w emsg, [])
  | Except.ok body =>
    if jsTruthy body.videoUrl = false then (missingVideoUrlResp, [])
    else if jsTruthy w.supadataKey = false then (missingSupadataKeyResp, [])
    else if jsTruthy w.groqKey = false then (missingGroqKeyResp, [])
    else
      let videoUrl := jsStr body.videoUrl
      match extractVideoId videoUrl with
      | none => (invalidUrlResp, [])
      | some videoId =>
        let metadata := getYoutubeMetadata w.oembed videoUrl
        match fetchTranscriptText w.supadata with
        | Except.error tmsg =>
          (transcriptFailResp metadata videoId videoUrl tmsg,
           [NetCall.oembedCall, NetCall.supadataCall])
        | Except.ok tbody =>
          let transcript := mkTranscript tbody metadata videoId videoUrl
          match w.groq with
          | GroqOutcome.throws gmsg =>
            (degradedResp transcript gmsg
               (generateFallbackAnalysis (chosenTitle metadata videoId)),
             [NetCall.oembedCall, NetCall.supadataCall, NetCall.groqCall])
          | GroqOutcome.reply content =>
            (fullSuccessResp w transcript (mkAnalysis metadata videoId (jsOrStr content (""))),
             [NetCall.oembedCall, NetCall.supadataCall, NetCall.groqCall])

/-! ## Scanner lemmas shared by the claims about the post-processors -/

/-- The tail of the line list strictly after the first trigger line, or
`none` when no line triggers. -/
def linesAfterFirstTrigger (trigger : List Char → Bool) :
    List (List Char) → Option (List (List Char))
  | [] => none
  | line :: rest =>
    if trigger line then some rest else linesAfterFirstTrigger trigger rest

theorem collect_go_spec (trigger : List Char → Bool) (lines : List (List Char)) :
    ∀ acc : List String, acc.length < 5 →
      collectListItems trigger lines true acc =
        acc ++ (((lines.filter fun l => !trigger l && isListLine l).map
            fun l => String.mk (stripItem l)).take (5 - acc.length)) := by
  induction lines with
  | nil => intro acc h; simp [collectListItems]
  | cons line rest ih =>
    intro acc h
    by_cases ht : trigger line = true
    · simp [collectListItems, ht, List.filter_cons, ih acc h]
    · have ht' : trigger line = false := by simpa using ht
      by_cases hl : isListLine line = true
      · have hstep : collectListItems trigger (line :: rest) true acc =
            (if 5 ≤ (acc ++ [String.mk (stripItem line)]).length then
              acc ++ [String.mk (stripItem line)]
            else collectListItems trigger rest true (acc ++ [String.mk (stripItem line)])) := by
          simp [collectListItems, ht', hl]
        rw [hstep]
        by_cases h4 : acc.length = 4
        · rw [if_pos (by simp [h4])]
          have h1 : 5 - acc.length = 1 := by omega
          simp [List.filter_cons, ht', hl, h1]
        · have hlen : (acc ++ [String.mk (stripItem line)]).length = acc.length + 1 := by simp
          rw [if_neg (by rw [hlen]; omega)]
          rw [ih _ (by rw [hlen]; omega)]
          have h2 : 5 - acc.length = (5 - (acc.length + 1)) + 1 := by omega
          simp [List.filter_cons, ht', hl, h2, List.take_succ_cons, List.append_assoc]
      · have hl' : isListLine line = false := by simpa using hl
        have h5 : ¬ 5 ≤ acc.length := by omega
        have hstep : collectListItems trigger (line :: rest) true acc =
            collectListItems trigger rest true acc := by
          simp [collectListItems, ht', hl', h5]
        rw [hstep, ih acc h]
        simp [List.filter_cons, ht', hl']

theorem collect_start_spec (trigger : List Char → Bool) (lines : List (List Char)) :
    collectListItems trigger lines false [] =
      (match linesAfterFirstTrigger trigger lines with
       | none => []
       | some rest => collectListItems trigger rest true []) := by
  induction lines with
  | nil => simp [collectListItems, linesAfterFirstTrigger]
  | cons line rest ih =>
    by_cases ht : trigger line = true
    · simp [collectListItems, linesAfterFirstTrigger, ht]
    · have ht' : trigger line = false := by simpa using ht
      simp [collectListItems, linesAfterFirstTrigger, ht', ih]

/-- The scanning loop, characterised: it yields the first five stripped list
lines that follow the first trigger line and are not themselves trigger
lines (`continue` skips every trigger line, even a bulleted one). -/
theorem collect_spec (trigger : List Char → Bool) (lines : List (List Char)) :
    collectListItems trigger lines false [] =
      (match linesAfterFirstTrigger trigger lines with
       | none => []
       | some rest =>
         ((rest.filter fun l => !trigger l && isListLine l).map
             fun l => String.mk (stripItem l)).take 5) := by
  rw [collect_start_spec]
  cases h : linesAfterFirstTrigger trigger lines with
  | none => rfl
  | some rest =>
    have := collect_go_spec trigger rest [] (by simp)
    simpa using this

theorem linesAfterFirstTrigger_eq_none (trigger : List Char → Bool)
    (lines : List (List Char)) (h : ∀ l ∈ lines, trigger l = false) :
    linesAfterFirstTrigger trigger lines = none := by
  induction lines with
  | nil => rfl
  | cons line rest ih =>
    have h1 : trigger line = false := h line (List.mem_cons_self line rest)
    simp [linesAfterFirstTrigger, h1]
    exact ih (fun l hl => h l (List.mem_cons_of_mem line hl))

theorem collect_length_le (trigger : List Char → Bool) (lines : List (List Char)) :
    ∀ (inSection : Bool) (acc : List String), acc.length < 5 →
      (collectListItems trigger lines inSection acc).length ≤ 5 := by
  induction lines with
  | nil => intro inSection acc h; simp [collectListItems]; omega
  | cons line rest ih =>
    intro inSection acc h
    by_cases ht : trigger line = true
    · simp only [collectListItems, ht, if_pos rfl]
      exact ih true acc h
    · have ht' : trigger line = false := by simpa using ht
      simp only [collectListItems, ht', Bool.false_eq_true, if_false]
      set acc2 := if (inSection && isListLine line) = true
          then acc ++ [String.mk (stripItem line)] else acc with hacc2
      have hle : acc2.length ≤ acc.length + 1 := by
        rw [hacc2]; split <;> simp
      by_cases h5 : 5 ≤ acc2.length
      · rw [if_pos h5]; omega
      · rw [if_neg h5]; exact ih inSection acc2 (by omega)

/-! ## Claim C4: `extractVideoId` -/

/-- Claim C4. For every string on which the recognised-URL regular expression
matches with an 11-character capture group 7, `extractVideoId` returns that
exact string; when the regular expression does not match, or the captured
segment has a length other than 11, it returns `none`.  (The Lean embedding
is a total function, modelling that the source never throws.) -/
theorem extractVideoId_matches_regex (url g : String) :
    (jsMatchGroup7 url = some g → g.length = 11 → extractVideoId url = some g)
    ∧ (jsMatchGroup7 url = none → extractVideoId url = none)
    ∧ (jsMatchGroup7 url = some g → g.length ≠ 11 → extractVideoId url = none) := by
  refine ⟨?_, ?_, ?_⟩
  · intro hm hlen
    have hne : g ≠ "" := by
      intro he
      rw [he] at hlen
      exact absurd hlen (by decide)
    have hurl : url ≠ "" := by
      intro he
      rw [he] at hm
      have hnone : jsMatchGroup7 ("") = none := rfl
      rw [hnone] at hm
      cases hm
    simp [extractVideoId, hurl, hm, hne, hlen]
  · intro hm
    by_cases hurl : url = ""
    · simp [extractVideoId, hurl]
    · simp [extractVideoId, hurl, hm]
  · intro hm hlen
    by_cases hurl : url = ""
    · simp [extractVideoId, hurl]
    · simp [extractVideoId, hurl, hm, hlen]

theorem extractVideoId_matches_regex_witness :
    extractVideoId ("https://www.youtube.com/watch?v=dQw4w9WgXcQ") = some ("dQw4w9WgXcQ") :=
  (extractVideoId_matches_regex ("https://www.youtube.com/watch?v=dQw4w9WgXcQ")
    ("dQw4w9WgXcQ")).1 (by decide) (by decide)

/-- The short-link shape is recognised as well. -/
theorem extractVideoId_short_link :
    extractVideoId ("https://youtu.be/dQw4w9WgXcQ") = some ("dQw4w9WgXcQ") := by decide

/-- A non-matching input yields `none`. -/
theorem extractVideoId_non_url : extractVideoId ("not a url") = none := by decide

/-! ## Claim C5: `extractKeyTakeaways` -/

/-- A text whose first line triggers the takeaway section, followed by
seven bulleted lines. -/
def sevenBulletsText : String :=
  "Key Takeaways:\n- one\n- two\n- three\n- four\n- five\n- six\n- seven"

/-- A text whose bulleted line itself contains a trigger phrase. -/
def triggerBulletText : String := "Key takeaways:\n- main point alpha"

/-- The collection rule exactly as claim C5 words it: after the first
trigger line, *every* subsequent non-blank bullet/numbered line is collected
(stripped of its leading markers), up to five items, with the placeholder
when none are collected.  Deliberately written from the claim's sentence so
it can be compared with the source's `extractKeyTakeaways`. -/
def claimStatedKeyTakeaways (text : String) : List String :=
  let items :=
    (match linesAfterFirstTrigger keyTakeawayTrigger (splitLines text.data) with
     | none => []
     | some rest => ((rest.filter isListLine).map fun l => String.mk (stripItem l)).take 5)
  if items.length = 0 then ["No specific key takeaways identified"] else items

/-- Claim C5, counterexample. The source loop re-checks the trigger phrases
on every line and `continue`s past them, so a bulleted line that itself
contains `main point` is *not* collected, while the claim's collection rule
collects it: on `"Key takeaways:\n- main point alpha"` the code returns the
placeholder, not the collected line the claim requires. -/
theorem extractKeyTakeaways_claim_cex :
    extractKeyTakeaways triggerBulletText = ["No specific key takeaways identified"]
    ∧ claimStatedKeyTakeaways triggerBulletText = ["main point alpha"]
    ∧ extractKeyTakeaways triggerBulletText ≠ claimStatedKeyTakeaways triggerBulletText :=
  ⟨by decide, by decide, by decide⟩

/-- Claim C5, amended. The function `extractKeyTakeaways` scans lines in order; after the
first line containing `key takeaway` or `main point` (case-insensitive) it
collects each subsequent non-blank line that starts with `-`, `•` or
digits-followed-by-dot *and does not itself contain a trigger phrase* (such
lines are treated as further section triggers and skipped), stripped of its
leading bullet/number markers, stopping once 5 items are collected or input
ends; if no items are collected it returns exactly one placeholder string.
On a `Key Takeaways:` line followed by 7 bulleted lines it returns exactly
the first 5 of them. -/
theorem extractKeyTakeaways_spec (text : String) :
    extractKeyTakeaways text =
      (match linesAfterFirstTrigger keyTakeawayTrigger (splitLines text.data) with
       | none => ["No specific key takeaways identified"]
       | some rest =>
         let items := ((rest.filter fun l => !keyTakeawayTrigger l && isListLine l).map
             fun l => String.mk (stripItem l)).take 5
         if items.length = 0 then ["No specific key takeaways identified"] else items)
    ∧ extractKeyTakeaways sevenBulletsText = ["one", "two", "three", "four", "five"] := by
  constructor
  · simp only [extractKeyTakeaways]
    rw [collect_spec]
    cases h : linesAfterFirstTrigger keyTakeawayTrigger (splitLines text.data) with
    | none => simp
    | some rest => simp
  · decide

/-! ## Claim C6: `extractTopics` -/

/-- Claim C6. The function `extractTopics` runs the same scanning loop as
`extractKeyTakeaways` (the shared `collectListItems`, fourth conjunct),
triggered by lines containing `topic`, `theme` or `subject`
(case-insensitive); each collected list line becomes a topic whose title is
the stripped line and whose description is `Discussion about ` followed by
that title; at most 5 topics are produced; and an input none of whose lines
contains a trigger phrase yields exactly the placeholder topic titled
`General Content`. -/
theorem extractTopics_spec (text : String) :
    extractTopics text =
      (match linesAfterFirstTrigger topicTrigger (splitLines text.data) with
       | none => [Topic.mk ("General Content") ("The main content of the video")]
       | some rest =>
         let c := ((rest.filter fun l => !topicTrigger l && isListLine l).map
             fun l => String.mk (stripItem l)).take 5
         if c.length = 0 then [Topic.mk ("General Content") ("The main content of the video")]
         else c.map fun t => Topic.mk t ("Discussion about " ++ t))
    ∧ (extractTopics text).length ≤ 5
    ∧ ((∀ l ∈ splitLines text.data, topicTrigger l = false) →
        extractTopics text = [Topic.mk ("General Content") ("The main content of the video")])
    ∧ extractKeyTakeaways text =
        (let c := collectListItems keyTakeawayTrigger (splitLines text.data) false []
         if c.length = 0 then ["No specific key takeaways identified"] else c) := by
  refine ⟨?_, ?_, ?_, rfl⟩
  · simp only [extractTopics]
    rw [collect_spec]
    cases h : linesAfterFirstTrigger topicTrigger (splitLines text.data) with
    | none => simp
    | some rest => simp [List.length_map]
  · have hlen := collect_length_le topicTrigger (splitLines text.data) false [] (by simp)
    simp only [extractTopics]
    by_cases h0 :
        ((collectListItems topicTrigger (splitLines text.data) false []).map
          (fun t => Topic.mk t ("Discussion about " ++ t))).length = 0
    · rw [if_pos h0]; simp
    · rw [if_neg h0]; simpa using hlen
  · intro hno
    have h1 := linesAfterFirstTrigger_eq_none topicTrigger (splitLines text.data) hno
    simp only [extractTopics]
    rw [collect_start_spec, h1]
    simp

theorem extractTopics_spec_witness :
    extractTopics ("hello there") = [Topic.mk ("General Content") ("The main content of the video")] :=
  (extractTopics_spec ("hello there")).2.2.1 (by decide)

/-! ## Concrete request worlds used as witnesses -/

def urlA : String := "https://youtu.be/dQw4w9WgXcQ"

def idA : String := "dQw4w9WgXcQ"

def tbodyA : SupadataBody :=
  { success := true, message := none, text := "hello transcript", segments := none }

def sbFail : SupadataBody :=
  { success := false, message := some ("upstream says no"), text := "", segments := none }

def baseWorld : World :=
  { reqBody := Except.ok { videoUrl := some urlA },
    supadataKey := some ("sk"), groqKey := some ("gk"),
    oembed := OembedOutcome.netThrow,
    supadata := SupadataOutcome.reply 200 tbodyA,
    groq := GroqOutcome.reply (some ("fine")),
    requestId := "abc12345", startTime := 5, endTime := 9,
    devMode := false, errStack := "" }

def groqFailWorld : World := { baseWorld with groq := GroqOutcome.throws ("boom") }

def supadataFailWorld : World :=
  { baseWorld with supadata := SupadataOutcome.reply 500 sbFail }

def noKeyWorld : World := { baseWorld with supadataKey := none }

def noUrlWorld : World := { baseWorld with reqBody := Except.ok { videoUrl := none } }

/-! ## Claim C1 -/

/-- Claim C1. Whenever the transcript fetch succeeds but the Groq call
throws, the handler returns the degraded response: success with the partial
flag, HTTP 200, the already-fetched transcript unchanged in the payload, and
an analysis equal to the static fallback analysis built only from the chosen
video title (the metadata title when truthy, otherwise `Video ` followed by
the video ID). -/
theorem post_degraded_on_groq_throw (w : World) (body : ReqBody) (url videoId : String)
    (tbody : SupadataBody) (gmsg : String)
    (hb : w.reqBody = Except.ok body) (hu : body.videoUrl = some url) (hne : url ≠ "")
    (hk1 : jsTruthy w.supadataKey = true) (hk2 : jsTruthy w.groqKey = true)
    (hid : extractVideoId url = some videoId)
    (ht : fetchTranscriptText w.supadata = Except.ok tbody)
    (hg : w.groq = GroqOutcome.throws gmsg) :
    (POST w).1 =
      degradedResp (mkTranscript tbody (getYoutubeMetadata w.oembed url) videoId url) gmsg
        (generateFallbackAnalysis (chosenTitle (getYoutubeMetadata w.oembed url) videoId))
    ∧ (POST w).1.success = true ∧ (POST w).1.partFlag = some true
    ∧ (POST w).1.status = 200 := by
  have hv : jsTruthy body.videoUrl = true := by rw [hu]; simp [jsTruthy, hne]
  have hsu : jsStr body.videoUrl = url := by rw [hu]; rfl
  have hmain : (POST w).1 =
      degradedResp (mkTranscript tbody (getYoutubeMetadata w.oembed url) videoId url) gmsg
        (generateFallbackAnalysis (chosenTitle (getYoutubeMetadata w.oembed url) videoId)) := by
    simp [POST, hb, hv, hk1, hk2, hsu, hid, ht, hg]
  exact ⟨hmain, by rw [hmain]; rfl, by rw [hmain]; rfl, by rw [hmain]; rfl⟩

theorem post_degraded_on_groq_throw_witness :
    (POST groqFailWorld).1 =
      degradedResp (mkTranscript tbodyA (getYoutubeMetadata groqFailWorld.oembed urlA) idA urlA)
        ("boom")
        (generateFallbackAnalysis (chosenTitle (getYoutubeMetadata groqFailWorld.oembed urlA) idA))
    ∧ (POST groqFailWorld).1.success = true ∧ (POST groqFailWorld).1.partFlag = some true
    ∧ (POST groqFailWorld).1.status = 200 :=
  post_degraded_on_groq_throw groqFailWorld { videoUrl := some urlA } urlA idA tbodyA ("boom")
    rfl rfl (by decide) rfl rfl (by decide) rfl rfl

/-! ## Claim C2 -/

/-- A response-shaped transcript failure (non-2xx status, or an explicit
false success flag in the body) makes the fetch step throw the corresponding
upstream message. -/
theorem fetchTranscriptText_fail (st : Nat) (b : SupadataBody)
    (h : statusOk st = false ∨ b.success = false) :
    fetchTranscriptText (SupadataOutcome.reply st b) = Except.error (supadataFailMsg st b) := by
  rcases h with h | h
  · simp [fetchTranscriptText, supadataFailMsg, h]
  · by_cases hst : statusOk st = false
    · simp [fetchTranscriptText, supadataFailMsg, hst]
    · have hst' : statusOk st = true := by simpa using hst
      simp [fetchTranscriptText, supadataFailMsg, hst', h]

/-- Claim C2. Whenever the transcript fetch fails — a non-2xx HTTP status or
a response body whose success flag is false — the handler returns a response
with `success = false` whose payload holds the placeholder transcript
carrying an error descriptor with code `TRANSCRIPT_FETCH_ERROR` and the
upstream error message, together with the static fallback analysis. -/
theorem post_transcript_failure (w : World) (body : ReqBody) (url videoId : String)
    (st : Nat) (sb : SupadataBody)
    (hb : w.reqBody = Except.ok body) (hu : body.videoUrl = some url) (hne : url ≠ "")
    (hk1 : jsTruthy w.supadataKey = true) (hk2 : jsTruthy w.groqKey = true)
    (hid : extractVideoId url = some videoId)
    (hs : w.supadata = SupadataOutcome.reply st sb)
    (hfail : statusOk st = false ∨ sb.success = false) :
    (POST w).1 =
      transcriptFailResp (getYoutubeMetadata w.oembed url) videoId url (supadataFailMsg st sb)
    ∧ (POST w).1.success = false
    ∧ (POST w).1.data = some
        { transcript :=
            fallbackTranscript (getYoutubeMetadata w.oembed url) videoId url (supadataFailMsg st sb),
          analysis :=
            generateFallbackAnalysis (chosenTitle (getYoutubeMetadata w.oembed url) videoId) }
    ∧ (fallbackTranscript (getYoutubeMetadata w.oembed url) videoId url
        (supadataFailMsg st sb)).error =
        some { message := supadataFailMsg st sb, code := "TRANSCRIPT_FETCH_ERROR" }
    ∧ (POST w).1.error = ErrField.msg ("Failed to fetch transcript: " ++ supadataFailMsg st sb) := by
  have hv : jsTruthy body.videoUrl = true := by rw [hu]; simp [jsTruthy, hne]
  have hsu : jsStr body.videoUrl = url := by rw [hu]; rfl
  have ht : fetchTranscriptText w.supadata = Except.error (supadataFailMsg st sb) := by
    rw [hs]; exact fetchTranscriptText_fail st sb hfail
  have hmain : (POST w).1 =
      transcriptFailResp (getYoutubeMetadata w.oembed url) videoId url (supadataFailMsg st sb) := by
    simp [POST, hb, hv, hk1, hk2, hsu, hid, ht]
  exact ⟨hmain, by rw [hmain]; rfl, by rw [hmain]; rfl, rfl, by rw [hmain]; rfl⟩

theorem post_transcript_failure_witness :
    (POST supadataFailWorld).1 =
      transcriptFailResp (getYoutubeMetadata supadataFailWorld.oembed urlA) idA urlA
        (supadataFailMsg 500 sbFail)
    ∧ (POST supadataFailWorld).1.success = false
    ∧ (POST supadataFailWorld).1.data = some
        { transcript :=
            fallbackTranscript (getYoutubeMetadata supadataFailWorld.oembed urlA) idA urlA
              (supadataFailMsg 500 sbFail),
          analysis :=
            generateFallbackAnalysis
              (chosenTitle (getYoutubeMetadata supadataFailWorld.oembed urlA) idA) }
    ∧ (fallbackTranscript (getYoutubeMetadata supadataFailWorld.oembed urlA) idA urlA
        (supadataFailMsg 500 sbFail)).error =
        some { message := supadataFailMsg 500 sbFail, code := "TRANSCRIPT_FETCH_ERROR" }
    ∧ (POST supadataFailWorld).1.error =
        ErrField.msg ("Failed to fetch transcript: " ++ supadataFailMsg 500 sbFail) :=
  post_transcript_failure supadataFailWorld { videoUrl := some urlA } urlA idA 500 sbFail
    rfl rfl (by decide) rfl rfl (by decide) rfl (Or.inl (by decide))

/-! ## Claim C3 -/

/-- Claim C3, counterexample. A request that ends in the degraded
(summarization-failed) tier or in the transcript-failure tier receives a
response body with *no* request-id and *no* processing-time field — the
source's responses on lines 360-370 and 393-400 simply do not write them —
while the full-success response carries both.  This refutes the claim that
those two tiers preserve the correlation identifier and the timing
measurement. -/
theorem post_fallback_tiers_drop_correlation_cex :
    (POST groqFailWorld).1.partFlag = some true
    ∧ (POST groqFailWorld).1.requestId = none
    ∧ (POST groqFailWorld).1.processingTime = none
    ∧ (POST supadataFailWorld).1.success = false
    ∧ (POST supadataFailWorld).1.status = 200
    ∧ (POST supadataFailWorld).1.requestId = none
    ∧ (POST supadataFailWorld).1.processingTime = none
    ∧ (POST baseWorld).1.requestId = some ("abc12345")
    ∧ (POST baseWorld).1.processingTime = some 4 := by
  refine ⟨rfl, rfl, rfl, rfl, rfl, rfl, rfl, rfl, rfl⟩

/-- Claim C3, amended. Among the three pipeline tiers, only the
full-success response carries the request correlation identifier and the
processing-time measurement; the degraded (summarization-failed) response
and the transcript-failure response carry neither.  (The outer catch-all 500
also carries both, see `serverErrorResp`.) -/
theorem post_correlation_fields (w : World) (body : ReqBody) (url videoId : String)
    (hb : w.reqBody = Except.ok body) (hu : body.videoUrl = some url) (hne : url ≠ "")
    (hk1 : jsTruthy w.supadataKey = true) (hk2 : jsTruthy w.groqKey = true)
    (hid : extractVideoId url = some videoId) :
    (∀ tmsg, fetchTranscriptText w.supadata = Except.error tmsg →
       (POST w).1.requestId = none ∧ (POST w).1.processingTime = none)
    ∧ (∀ tbody gmsg, fetchTranscriptText w.supadata = Except.ok tbody →
        w.groq = GroqOutcome.throws gmsg →
        (POST w).1.requestId = none ∧ (POST w).1.processingTime = none)
    ∧ (∀ tbody content, fetchTranscriptText w.supadata = Except.ok tbody →
        w.groq = GroqOutcome.reply content →
        (POST w).1.requestId = some w.requestId
        ∧ (POST w).1.processingTime = some (w.endTime - w.startTime)) := by
  have hv : jsTruthy body.videoUrl = true := by rw [hu]; simp [jsTruthy, hne]
  have hsu : jsStr body.videoUrl = url := by rw [hu]; rfl
  refine ⟨?_, ?_, ?_⟩
  · intro tmsg ht
    have hmain : (POST w).1 =
        transcriptFailResp (getYoutubeMetadata w.oembed url) videoId url tmsg := by
      simp [POST, hb, hv, hk1, hk2, hsu, hid, ht]
    rw [hmain]; exact ⟨rfl, rfl⟩
  · intro tbody gmsg ht hg
    have hmain : (POST w).1 =
        degradedResp (mkTranscript tbody (getYoutubeMetadata w.oembed url) videoId url) gmsg
          (generateFallbackAnalysis (chosenTitle (getYoutubeMetadata w.oembed url) videoId)) := by
      simp [POST, hb, hv, hk1, hk2, hsu, hid, ht, hg]
    rw [hmain]; exact ⟨rfl, rfl⟩
  · intro tbody content ht hg
    have hmain : (POST w).1 =
        fullSuccessResp w (mkTranscript tbody (getYoutubeMetadata w.oembed url) videoId url)
          (mkAnalysis (getYoutubeMetadata w.oembed url) videoId (jsOrStr content (""))) := by
      simp [POST, hb, hv, hk1, hk2, hsu, hid, ht, hg]
    rw [hmain]; exact ⟨rfl, rfl⟩

theorem post_correlation_fields_witness :
    (POST baseWorld).1.requestId = some baseWorld.requestId
    ∧ (POST baseWorld).1.processingTime = some (baseWorld.endTime - baseWorld.startTime) :=
  (post_correlation_fields baseWorld { videoUrl := some urlA } urlA idA
    rfl rfl (by decide) rfl rfl (by decide)).2.2 tbodyA (some ("fine")) rfl rfl

/-! ## Claim C7 -/

/-- Claim C7. For every request with a truthy `videoUrl`, when the
`SUPADATA_API_KEY` configuration value is falsy (absent or empty) the
handler returns HTTP 500 with `success = false`, an error message containing
`Missing Supadata API key`, a troubleshooting hint, and performs no outbound
network call (the performed-call trace is empty). -/
theorem post_missing_supadata_key (w : World) (body : ReqBody)
    (hb : w.reqBody = Except.ok body) (hv : jsTruthy body.videoUrl = true)
    (hk : jsTruthy w.supadataKey = false) :
    POST w = (missingSupadataKeyResp, [])
    ∧ (POST w).1.status = 500 ∧ (POST w).1.success = false
    ∧ (POST w).1.error = ErrField.msg ("Server configuration error: Missing Supadata API key")
    ∧ containsL ("Server configuration error: Missing Supadata API key".data)
        ("Missing Supadata API key".data) = true
    ∧ (POST w).1.troubleshooting = some ("Add SUPADATA_API_KEY to your environment variables")
    ∧ (POST w).2 = [] := by
  have hmain : POST w = (missingSupadataKeyResp, []) := by
    simp [POST, hb, hv, hk]
  rw [hmain]
  exact ⟨rfl, rfl, rfl, rfl, by decide, rfl, rfl⟩

theorem post_missing_supadata_key_witness :
    POST noKeyWorld = (missingSupadataKeyResp, [])
    ∧ (POST noKeyWorld).1.status = 500 ∧ (POST noKeyWorld).1.success = false
    ∧ (POST noKeyWorld).1.error =
        ErrField.msg ("Server configuration error: Missing Supadata API key")
    ∧ containsL ("Server configuration error: Missing Supadata API key".data)
        ("Missing Supadata API key".data) = true
    ∧ (POST noKeyWorld).1.troubleshooting =
        some ("Add SUPADATA_API_KEY to your environment variables")
    ∧ (POST noKeyWorld).2 = [] :=
  post_missing_supadata_key noKeyWorld { videoUrl := some urlA } rfl (by decide) rfl

/-! ## Claim C8 -/

def sampleMeta : VideoMetadata :=
  { title := some ("T"), author_name := some ("A"), length_seconds := some 10,
    thumbnail_url := some ("U"), description := some ("D") }

/-- Claim C8. `getYoutubeMetadata` never raises — it is a total function
into an optional result — and absorbs every failure into `none`: a rejected
fetch or body-parse throw, and any non-2xx status.  When metadata is absent
the caller's assembled video info substitutes the defaults: placeholder
title `Video ` + id, author `Unknown`, and the default thumbnail URL
pattern. -/
theorem getYoutubeMetadata_absorbs_failures (url videoId : String) (st : Nat)
    (m : VideoMetadata) (tb : SupadataBody) :
    getYoutubeMetadata OembedOutcome.netThrow url = none
    ∧ (statusOk st = false → getYoutubeMetadata (OembedOutcome.reply st m) url = none)
    ∧ (mkTranscript tb none videoId url).videoInfo.title = "Video " ++ videoId
    ∧ (mkTranscript tb none videoId url).videoInfo.author = "Unknown"
    ∧ (mkTranscript tb none videoId url).videoInfo.thumbnailUrl =
        "https://img.youtube.com/vi/" ++ videoId ++ "/hqdefault.jpg" := by
  refine ⟨?_, ?_, rfl, rfl, rfl⟩
  · unfold getYoutubeMetadata
    cases extractVideoId url <;> rfl
  · intro h
    unfold getYoutubeMetadata
    cases extractVideoId url with
    | none => rfl
    | some v => simp [h]

theorem getYoutubeMetadata_absorbs_failures_witness :
    getYoutubeMetadata (OembedOutcome.reply 500 sampleMeta) urlA = none :=
  (getYoutubeMetadata_absorbs_failures urlA idA 500 sampleMeta tbodyA).2.1 (by decide)

/-! ## Claim C9 -/

/-- Claim C9. Once a request passes body parsing, the `videoUrl` presence
check, both configuration checks and ID extraction, the response status is
200 for every transcript/Groq outcome — in particular for the degraded tier
and for the transcript-failure tier, whose body has `success = false`.  The
only non-200 responses are: uncaught exception (500), missing `videoUrl`
(400), missing configuration (500), and invalid URL (400). -/
theorem post_status_codes (w : World) :
    (∀ body videoId, w.reqBody = Except.ok body → jsTruthy body.videoUrl = true →
      jsTruthy w.supadataKey = true → jsTruthy w.groqKey = true →
      extractVideoId (jsStr body.videoUrl) = some videoId → (POST w).1.status = 200)
    ∧ (∀ emsg, w.reqBody = Except.error emsg → (POST w).1.status = 500)
    ∧ (∀ body, w.reqBody = Except.ok body → jsTruthy body.videoUrl = false →
        (POST w).1.status = 400)
    ∧ (∀ body, w.reqBody = Except.ok body → jsTruthy body.videoUrl = true →
        jsTruthy w.supadataKey = false → (POST w).1.status = 500)
    ∧ (∀ body, w.reqBody = Except.ok body → jsTruthy body.videoUrl = true →
        jsTruthy w.supadataKey = true → jsTruthy w.groqKey = false →
        (POST w).1.status = 500)
    ∧ (∀ body, w.reqBody = Except.ok body → jsTruthy body.videoUrl = true →
        jsTruthy w.supadataKey = true → jsTruthy w.groqKey = true →
        extractVideoId (jsStr body.videoUrl) = none → (POST w).1.status = 400) := by
  refine ⟨?_, ?_, ?_, ?_, ?_, ?_⟩
  · intro body videoId hb hv hk1 hk2 hid
    cases ht : fetchTranscriptText w.supadata with
    | error tmsg =>
      have hmain : (POST w).1 =
          transcriptFailResp (getYoutubeMetadata w.oembed (jsStr body.videoUrl)) videoId
            (jsStr body.videoUrl) tmsg := by
        simp [POST, hb, hv, hk1, hk2, hid, ht]
      rw [hmain]; rfl
    | ok tbody =>
      cases hg : w.groq with
      | throws gmsg =>
        have hmain : (POST w).1 =
            degradedResp
              (mkTranscript tbody (getYoutubeMetadata w.oembed (jsStr body.videoUrl)) videoId
                (jsStr body.videoUrl)) gmsg
              (generateFallbackAnalysis
                (chosenTitle (getYoutubeMetadata w.oembed (jsStr body.videoUrl)) videoId)) := by
          simp [POST, hb, hv, hk1, hk2, hid, ht, hg]
        rw [hmain]; rfl
      | reply content =>
        have hmain : (POST w).1 =
            fullSuccessResp w
              (mkTranscript tbody (getYoutubeMetadata w.oembed (jsStr body.videoUrl)) videoId
                (jsStr body.videoUrl))
              (mkAnalysis (getYoutubeMetadata w.oembed (jsStr body.videoUrl)) videoId
                (jsOrStr content (""))) := by
          simp [POST, hb, hv, hk1, hk2, hid, ht, hg]
        rw [hmain]; rfl
  · intro emsg hb
    have hmain : (POST w).1 = serverErrorResp w emsg := by simp [POST, hb]
    rw [hmain]; rfl
  · intro body hb hv
    have hmain : (POST w).1 = missingVideoUrlResp := by simp [POST, hb, hv]
    rw [hmain]; rfl
  · intro body hb hv hk
    have hmain : (POST w).1 = missingSupadataKeyResp := by simp [POST, hb, hv, hk]
    rw [hmain]; rfl
  · intro body hb hv hk1 hk2
    have hmain : (POST w).1 = missingGroqKeyResp := by simp [POST, hb, hv, hk1, hk2]
    rw [hmain]; rfl
  · intro body hb hv hk1 hk2 hid
    have hmain : (POST w).1 = invalidUrlResp := by simp [POST, hb, hv, hk1, hk2, hid]
    rw [hmain]; rfl

theorem post_status_codes_witness : (POST groqFailWorld).1.status = 200 :=
  (post_status_codes groqFailWorld).1 { videoUrl := some urlA } idA rfl (by decide) rfl rfl
    (by decide)

/-! ## Claim C10 -/

/-- Claim C10. For every request whose parsed body has a falsy `videoUrl`
(absent field or empty string), the handler returns HTTP 400 with
`success = false` and the message `Missing videoUrl parameter in request
body`, performing no outbound network call; the response is the same for
every configuration-key assignment, i.e. the check precedes the
configuration checks. -/
theorem post_missing_videoUrl (w : World) (body : ReqBody)
    (hb : w.reqBody = Except.ok body) (hv : jsTruthy body.videoUrl = false) :
    POST w = (missingVideoUrlResp, [])
    ∧ (POST w).1.status = 400 ∧ (POST w).1.success = false
    ∧ (POST w).1.error = ErrField.msg ("Missing videoUrl parameter in request body")
    ∧ (∀ k1 k2 : Option String,
        POST { w with supadataKey := k1, groqKey := k2 } = (missingVideoUrlResp, [])) := by
  have hmain : POST w = (missingVideoUrlResp, []) := by simp [POST, hb, hv]
  rw [hmain]
  refine ⟨rfl, rfl, rfl, rfl, ?_⟩
  intro k1 k2
  simp [POST, hb, hv]

theorem post_missing_videoUrl_witness :
    POST noUrlWorld = (missingVideoUrlResp, []) :=
  (post_missing_videoUrl noUrlWorld { videoUrl := none } rfl rfl).1
